import Mathlib

/-!
Shallow embedding of src/homework.py (a Telegram homework-status polling bot)
and proofs of the specification claims about it.

Python values decoded from JSON are modelled by the inductive type PyVal;
raised exceptions are modelled by the error side of Except with the inductive
type BotError; the network and the Telegram transport are modelled as
per-cycle inputs (HttpResult / a send-failure flag); the main loop is modelled
as a fold over a list of such per-cycle inputs that threads the loop state
(timestamp, last_error) and emits one trace record per cycle.
-/

namespace HomeworkBot

/-- Model of a decoded Python/JSON value as it flows through the program. -/
inductive PyVal where
| pstr (s : String)
| pint (n : Int)
| plist (xs : List PyVal)
| pdict (es : List (String × PyVal))
| pnone

/-- Model of the exceptions the program can raise.

Modelled from the spec: the module imported as exceptions is not under src/;
per the spec error taxonomy (section 7) its classes are plain message-carrying
Exception subclasses, so each custom class is one constructor holding its
message. Builtin KeyError, TypeError, IndexError and SystemExit get their own
constructors because homework.py also raises or propagates those. -/
inductive BotError where
| MissingEnviromentVariable (msg : String)
| SendMessageError (msg : String)
| GetRequestError (msg : String)
| StatusCodeNotOK (msg : String)
| JsonConvertingError (msg : String)
| NoMatchStatusHomework (msg : String)
| IncorrectHomeworkStatus (msg : String)
| keyError (msg : String)
| typeError (msg : String)
| indexError (msg : String)
| systemExit (msg : String)
deriving DecidableEq

/-- Python str(error): for KeyError, str() yields the repr of the argument
(the message wrapped in single quotes); for the other classes it is the
message itself. -/
def errText : BotError → String
| .keyError m => "\x27" ++ m ++ "\x27"
| .MissingEnviromentVariable m => m
| .SendMessageError m => m
| .GetRequestError m => m
| .StatusCodeNotOK m => m
| .JsonConvertingError m => m
| .NoMatchStatusHomework m => m
| .IncorrectHomeworkStatus m => m
| .typeError m => m
| .indexError m => m
| .systemExit m => m

/-- Association-list lookup, modelling Python dict lookup on decoded JSON
objects (keys are unique in decoded dicts, so first match suffices). -/
def assoc {α : Type} : List (String × α) → String → Option α
| [], _ => none
| (k, v) :: es, key => if k = key then some v else assoc es key

mutual

/-- Python repr() on modelled values. -/
def pyRepr : PyVal → String
| .pstr s => "\x27" ++ s ++ "\x27"
| .pint n => toString n
| .pnone => "None"
| .plist xs => "[" ++ pyReprList xs ++ "]"
| .pdict es => "\x7b" ++ pyReprDict es ++ "\x7d"

/-- Comma-separated reprs of list elements. -/
def pyReprList : List PyVal → String
| [] => ""
| [x] => pyRepr x
| x :: xs => pyRepr x ++ ", " ++ pyReprList xs

/-- Comma-separated key: value reprs of dict entries. -/
def pyReprDict : List (String × PyVal) → String
| [] => ""
| [(k, v)] => "\x27" ++ k ++ "\x27: " ++ pyRepr v
| (k, v) :: es => "\x27" ++ k ++ "\x27: " ++ pyRepr v ++ ", " ++ pyReprDict es

end

/-- Python str() on modelled values (as used by f-string interpolation). -/
def pyStr : PyVal → String
| .pstr s => s
| v => pyRepr v

/-- Python truthiness of a modelled value. -/
def pyFalsy : PyVal → Bool
| .pstr s => s == ""
| .pint n => n == 0
| .plist xs => xs.isEmpty
| .pdict es => es.isEmpty
| .pnone => true

/-- Python subscripting value[key] with a string key: on a dict a missing key
raises KeyError(key); any non-dict raises TypeError. -/
def subscript (v : PyVal) (key : String) : Except BotError PyVal :=
  match v with
  | .pdict es =>
    match assoc es key with
    | some x => .ok x
    | none => .error (.keyError key)
  | .pstr _ => .error (.typeError "string indices must be integers")
  | .plist _ => .error (.typeError "list indices must be integers")
  | .pint _ => .error (.typeError "\x27int\x27 object is not subscriptable")
  | .pnone => .error (.typeError "\x27NoneType\x27 object is not subscriptable")

/-- Python indexing value[i] with a non-negative integer index. -/
def pyIndex (v : PyVal) (i : Nat) : Except BotError PyVal :=
  match v with
  | .plist xs =>
    match xs.get? i with
    | some x => .ok x
    | none => .error (.indexError "list index out of range")
  | _ => .error (.typeError "object is not subscriptable by an integer")

/-- src/homework.py line 30. -/
def RETRY_PERIOD : Int := 600

/-- src/homework.py line 31. -/
def ENDPOINT : String := "https://practicum.yandex.ru/api/user_api/homework_statuses/"

/-- src/homework.py lines 35-39: the VerdictTable. -/
def HOMEWORK_VERDICTS : List (String × String) :=
  [("approved", "Работа проверена: ревьюеру всё понравилось. Ура!"),
   ("reviewing", "Работа взята на проверку ревьюером."),
   ("rejected", "Работа проверена: у ревьюера есть замечания.")]

/-- Python membership test value in HOMEWORK_VERDICTS (a dict, so membership
is over its keys); an unhashable value raises TypeError. -/
def verdictMember (v : PyVal) : Except BotError Bool :=
  match v with
  | .pstr s => .ok (assoc HOMEWORK_VERDICTS s).isSome
  | .pint _ => .ok false
  | .pnone => .ok false
  | .plist _ => .error (.typeError "unhashable type: \x27list\x27")
  | .pdict _ => .error (.typeError "unhashable type: \x27dict\x27")

/-- Python HOMEWORK_VERDICTS.get(value): returns the verdict, or None when the
(hashable) value is not a key; an unhashable value raises TypeError. -/
def verdictsGet (v : PyVal) : Except BotError (Option String) :=
  match v with
  | .pstr s => .ok (assoc HOMEWORK_VERDICTS s)
  | .pint _ => .ok none
  | .pnone => .ok none
  | .plist _ => .error (.typeError "unhashable type: \x27list\x27")
  | .pdict _ => .error (.typeError "unhashable type: \x27dict\x27")

/-- Log severities used by the program. -/
inductive LogLevel where
| critical
| error
| info
| debug
deriving DecidableEq

/-- The three environment-derived configuration values of src/homework.py
lines 16-18; os.getenv yields None when a variable is unset. -/
structure Config where
  PRACTICUM_TOKEN : Option String
  TELEGRAM_TOKEN : Option String
  TELEGRAM_CHAT_ID : Option String

/-- Python truthiness of an os.getenv result: None and the empty string are
falsy. -/
def envTruthy : Option String → Bool
| none => false
| some s => !(s == "")

/-- src/homework.py lines 42-50: check_tokens. Returns the log records it
emits together with its result: raises MissingEnviromentVariable (after a
critical log) when any of the three values is falsy, else returns True. -/
def check_tokens (cfg : Config) :
    List (LogLevel × String) × Except BotError Bool :=
  if envTruthy cfg.PRACTICUM_TOKEN && envTruthy cfg.TELEGRAM_CHAT_ID
      && envTruthy cfg.TELEGRAM_TOKEN then
    ([], .ok true)
  else
    ([(.critical, "Отсутствует переменная окружения")],
     .error (.MissingEnviromentVariable "Отсутствует переменная окружения"))

/-- src/homework.py lines 53-62: send_message. The Telegram transport is
modelled by the boolean fails (true when bot.send_message raises); on failure
the bot raises SendMessageError. -/
def send_message (fails : Bool) : Option BotError :=
  if fails then
    some (.SendMessageError "Ошибка при отправке сообщение в чат телеграмм")
  else
    none

/-- One cycle of network behaviour: the requests.get call either raises a
RequestException or yields a response with a status code and a body (none
models a body response.json() cannot decode). -/
inductive HttpResult where
| exn
| resp (statusCode : Nat) (body : Option PyVal)

/-- The GET request issued by get_api_answer: the fixed endpoint and the
from_date query parameter. -/
structure ApiRequest where
  url : String
  fromDate : Int
deriving DecidableEq

/-- src/homework.py lines 65-82: get_api_answer. Returns the request it
issued (carrying the from_date = timestamp parameter) together with the
decoded answer or the raised error. -/
def get_api_answer (timestamp : Int) (net : HttpResult) :
    ApiRequest × Except BotError PyVal :=
  (⟨ENDPOINT, timestamp⟩,
   match net with
   | .exn => .error (.GetRequestError "Сбой при запросе к эндпоинту")
   | .resp code body =>
     if code ≠ 200 then
       .error (.StatusCodeNotOK
         ("Статус запроса не ОК! Статус запроса: " ++ toString code))
     else
       match body with
       | none => .error (.JsonConvertingError "Ошибка при представлении json")
       | some v => .ok v)

/-- src/homework.py lines 87-92: the try/except KeyError block of
check_response; a KeyError from either required-key lookup is re-raised with
the fixed message, other errors propagate. -/
def requiredKeys (response : PyVal) : Except BotError PyVal :=
  match subscript response "homeworks" with
  | .error (.keyError _) =>
    .error (.keyError "Отсутствуют ожидаемые ключи в ответе API")
  | .error e => .error e
  | .ok homeworks =>
    match subscript response "current_date" with
    | .error (.keyError _) =>
      .error (.keyError "Отсутствуют ожидаемые ключи в ответе API")
    | .error e => .error e
    | .ok _ => .ok homeworks

/-- src/homework.py lines 85-105: check_response. -/
def check_response (response : PyVal) : Except BotError Bool :=
  match requiredKeys response with
  | .error e => .error e
  | .ok homeworks =>
    match homeworks with
    | .plist xs =>
      match xs with
      | [] => .ok false
      | hw :: _ =>
        match subscript hw "status" with
        | .error e => .error e
        | .ok st =>
          match verdictMember st with
          | .error e => .error e
          | .ok b =>
            if b then .ok true
            else .error (.NoMatchStatusHomework
              "Неизвестный статус домашней работы в ответе API")
    | _ => .error (.typeError "Значение ключа ответа API - не список")

/-- src/homework.py lines 108-124: parse_status. -/
def parse_status (homework : PyVal) : Except BotError String :=
  match homework with
  | .pdict es =>
    match assoc es "homework_name" with
    | none => .error (.keyError "В homework не оказалось ключа homework_name")
    | some hn =>
      match assoc es "status" with
      | none => .error (.keyError "В homework не оказалось ключа status")
      | some stv =>
        match verdictsGet stv with
        | .error e => .error e
        | .ok vopt =>
          if pyFalsy hn || (match vopt with
              | none => true
              | some vd => vd == "") then
            .error (.IncorrectHomeworkStatus
              "Пустой или недокументированный статус домашней работы")
          else
            match vopt with
            | some vd =>
              .ok ("Изменился статус проверки работы \"" ++ pyStr hn
                ++ "\". " ++ vd)
            | none =>
              .error (.IncorrectHomeworkStatus
                "Пустой или недокументированный статус домашней работы")
  | _ => .error (.typeError "homework не является словарем")

/-- The per-cycle external input to the loop body: what the network does and
whether the Telegram send raises. -/
structure CycleInput where
  http : HttpResult
  sendFails : Bool

/-- The loop state of main: the poll timestamp and the last_error marker
(src/homework.py lines 137-138). -/
structure MainState where
  timestamp : Int
  lastError : Option BotError

/-- Python str(last_error): str(None) is the string None. -/
def lastStr : Option BotError → String
| none => "None"
| some e => errText e

/-- Observable record of one cycle: the API request issued, the messages
passed to send_message, the error the cycle body raised (if any), and the
error-log line emitted by the except branch (if any). -/
structure CycleTrace where
  request : ApiRequest
  sends : List String
  err : Option BotError
  logged : Option String

/-- src/homework.py lines 141-144: the try block of one loop iteration.
Returns the issued API request, the list of messages passed to send_message,
and the error raised by the body (if any). -/
def cycleBody (timestamp : Int) (inp : CycleInput) :
    ApiRequest × List String × Option BotError :=
  ((get_api_answer timestamp inp.http).1,
   match (get_api_answer timestamp inp.http).2 with
   | .error e => ([], some e)
   | .ok answer =>
     match check_response answer with
     | .error e => ([], some e)
     | .ok b =>
       if b then
         match subscript answer "homeworks" with
         | .error e => ([], some e)
         | .ok hws =>
           match pyIndex hws 0 with
           | .error e => ([], some e)
           | .ok hw0 =>
             match parse_status hw0 with
             | .error e => ([], some e)
             | .ok msg => ([msg], send_message inp.sendFails)
       else ([], none))

/-- src/homework.py lines 140-151: one full iteration of the while loop,
including the except branch with its last_error de-duplication. -/
def mainStep (st : MainState) (inp : CycleInput) : MainState × CycleTrace :=
  match (cycleBody st.timestamp inp).2.2 with
  | none =>
    (st, ⟨(cycleBody st.timestamp inp).1, (cycleBody st.timestamp inp).2.1,
      none, none⟩)
  | some e =>
    if errText e ≠ lastStr st.lastError then
      ({ st with lastError := some e },
       ⟨(cycleBody st.timestamp inp).1, (cycleBody st.timestamp inp).2.1,
        some e, some ("Сбой в работе программы: " ++ errText e)⟩)
    else
      (st, ⟨(cycleBody st.timestamp inp).1, (cycleBody st.timestamp inp).2.1,
        some e, none⟩)

/-- The while loop, run over a finite prefix of per-cycle inputs. -/
def runLoop : MainState → List CycleInput → MainState × List CycleTrace
| st, [] => (st, [])
| st, inp :: rest =>
  ((runLoop (mainStep st inp).1 rest).1,
   (mainStep st inp).2 :: (runLoop (mainStep st inp).1 rest).2)

/-- src/homework.py lines 127-151: main. check_tokens either raises (the
error propagates out: the process dies before any network call) or returns
True; then the loop runs from the initial timestamp with last_error = None.
The sys.exit branch of lines 129-135 is kept for fidelity although
check_tokens never returns False. -/
def main (cfg : Config) (startTime : Int) (inps : List CycleInput) :
    Except BotError (MainState × List CycleTrace) :=
  match (check_tokens cfg).2 with
  | .error e => .error e
  | .ok b =>
    if b then .ok (runLoop ⟨startTime, none⟩ inps)
    else .error (.systemExit
      "Программа остановлена. Не обнаружены необходимые переменные окружения.")

/-- The record used by the specification example for parse_status. -/
def approvedRecord : PyVal :=
  .pdict [("homework_name", .pstr "lab1"), ("status", .pstr "approved")]

/-- A well-formed response with an empty homeworks list. -/
def emptyResp : PyVal :=
  .pdict [("homeworks", .plist []), ("current_date", .pint 1700000000)]

/-- A cycle whose requests.get raises. -/
def inExn : CycleInput := ⟨.exn, false⟩

/-- A cycle whose HTTP response has status 404. -/
def in404 : CycleInput := ⟨.resp 404 none, false⟩

/-- A successful cycle with an empty homeworks list. -/
def inEmptyOK : CycleInput := ⟨.resp 200 (some emptyResp), false⟩

/-- The error raised on a transport failure. -/
def eReq : BotError := .GetRequestError "Сбой при запросе к эндпоинту"

/-- The error raised on a 404 HTTP status. -/
def eStat : BotError := .StatusCodeNotOK "Статус запроса не ОК! Статус запроса: 404"

lemma cycleBody_request (t : Int) (inp : CycleInput) :
    (cycleBody t inp).1 = ⟨ENDPOINT, t⟩ := rfl

lemma mainStep_timestamp (st : MainState) (inp : CycleInput) :
    (mainStep st inp).1.timestamp = st.timestamp := by
  unfold mainStep
  cases h : (cycleBody st.timestamp inp).2.2 with
  | none => rfl
  | some e => dsimp only; split_ifs <;> rfl

lemma mainStep_fromDate (st : MainState) (inp : CycleInput) :
    (mainStep st inp).2.request.fromDate = st.timestamp := by
  unfold mainStep
  cases h : (cycleBody st.timestamp inp).2.2 with
  | none => rfl
  | some e => dsimp only; split_ifs <;> rfl

lemma mainStep_state_of_success (st : MainState) (inp : CycleInput)
    (h : (cycleBody st.timestamp inp).2.2 = none) :
    (mainStep st inp).1 = st := by
  unfold mainStep; rw [h]

lemma mainStep_err_of_err (st : MainState) (inp : CycleInput) (e : BotError)
    (h : (cycleBody st.timestamp inp).2.2 = some e) :
    (mainStep st inp).2.err = some e := by
  unfold mainStep; rw [h]; dsimp only; split_ifs <;> rfl

lemma mainStep_logged_of_err (st : MainState) (inp : CycleInput) (e : BotError)
    (h : (cycleBody st.timestamp inp).2.2 = some e) :
    (mainStep st inp).2.logged =
      if errText e ≠ lastStr st.lastError
      then some ("Сбой в работе программы: " ++ errText e) else none := by
  unfold mainStep; rw [h]; dsimp only; split_ifs <;> rfl

lemma mainStep_lastStr_of_err (st : MainState) (inp : CycleInput) (e : BotError)
    (h : (cycleBody st.timestamp inp).2.2 = some e) :
    lastStr (mainStep st inp).1.lastError = errText e := by
  unfold mainStep; rw [h]; dsimp only; split_ifs with hc
  · rfl
  · exact (not_not.mp hc).symm

lemma runLoop_timestamp (inps : List CycleInput) :
    ∀ st : MainState, (runLoop st inps).1.timestamp = st.timestamp := by
  induction inps with
  | nil => intro st; rfl
  | cons inp rest ih =>
    intro st
    simp only [runLoop]
    rw [ih, mainStep_timestamp]

lemma runLoop_fromDate (inps : List CycleInput) :
    ∀ st : MainState,
      ((runLoop st inps).2).map (fun tr => tr.request.fromDate) =
        inps.map (fun _ => st.timestamp) := by
  induction inps with
  | nil => intro st; rfl
  | cons inp rest ih =>
    intro st
    simp only [runLoop, List.map_cons]
    rw [mainStep_fromDate, ih, mainStep_timestamp]

/-- C1: the poll timestamp is initialized once at loop start and never mutated
afterwards: every cycle of the main loop issues its get_api_answer request
with from_date equal to the initial timestamp, whatever the per-cycle inputs
(including any response current_date) were, and the loop state still carries
the initial timestamp after any number of cycles. -/
theorem poll_timestamp_never_advances (t0 : Int) (inps : List CycleInput) :
    ((runLoop ⟨t0, none⟩ inps).2).map (fun tr => tr.request.fromDate) =
      inps.map (fun _ => t0) ∧
    (runLoop ⟨t0, none⟩ inps).1.timestamp = t0 :=
  ⟨runLoop_fromDate inps ⟨t0, none⟩, runLoop_timestamp inps ⟨t0, none⟩⟩

/-- C2 counterexample: on the record with homework_name lab1 and status
approved, parse_status does not return the English sentence the claim states;
the program's template and verdict strings are Russian. -/
theorem parse_status_not_english_literal :
    parse_status approvedRecord ≠
      Except.ok "Changed review status for \"lab1\". Work reviewed: the reviewer liked everything. Hooray!" := by
  intro h
  have hru : parse_status approvedRecord =
      Except.ok "Изменился статус проверки работы \"lab1\". Работа проверена: ревьюеру всё понравилось. Ура!" := rfl
  rw [hru] at h
  injection h with h2
  exact absurd h2 (by decide)

/-- C2 (amended): parse_status is a pure function and, on the record with
homework_name lab1 and status approved, returns exactly the localized string
Изменился статус проверки работы "lab1". Работа проверена: ревьюеру всё
понравилось. Ура! (the template instantiated with the VerdictTable entry for
approved). -/
theorem parse_status_approved_lab1 :
    parse_status approvedRecord =
      Except.ok "Изменился статус проверки работы \"lab1\". Работа проверена: ревьюеру всё понравилось. Ура!" := rfl

/-- C8: for every HTTP response whose status code is not 200, get_api_answer
fails with StatusCodeNotOK whose message carries the observed status code,
and returns no decoded response. -/
theorem get_api_answer_non_ok_status (t : Int) (code : Nat) (body : Option PyVal)
    (h : code ≠ 200) :
    (get_api_answer t (.resp code body)).2 =
      Except.error (.StatusCodeNotOK
        ("Статус запроса не ОК! Статус запроса: " ++ toString code)) := by
  simp [get_api_answer, h]

/-- Witness for C8 at status code 404. -/
theorem get_api_answer_non_ok_status_witness :
    (404 : Nat) ≠ 200 ∧
    (get_api_answer 0 (.resp 404 none)).2 =
      Except.error (BotError.StatusCodeNotOK
        ("Статус запроса не ОК! Статус запроса: " ++ toString (404 : Nat))) :=
  ⟨by decide, get_api_answer_non_ok_status 0 404 none (by decide)⟩

lemma verdict_lookup_none (s : String)
    (h : s ∉ (["approved", "reviewing", "rejected"] : List String)) :
    assoc HOMEWORK_VERDICTS s = none := by
  simp only [List.mem_cons, List.not_mem_nil, or_false, not_or] at h
  obtain ⟨h1, h2, h3⟩ := h
  simp only [HOMEWORK_VERDICTS, assoc,
    if_neg (Ne.symm h1), if_neg (Ne.symm h2), if_neg (Ne.symm h3)]

/-- C3: for every response containing the required keys homeworks and
current_date where homeworks is an empty list, check_response returns false
without raising, and in such a cycle the loop body passes no message to
send_message and raises no error. -/
theorem empty_homeworks_no_send (resp : PyVal) (v : PyVal)
    (h1 : subscript resp "homeworks" = Except.ok (.plist []))
    (h2 : subscript resp "current_date" = Except.ok v) :
    check_response resp = Except.ok false ∧
    ∀ (t : Int) (sendFails : Bool),
      (cycleBody t ⟨.resp 200 (some resp), sendFails⟩).2 = ([], none) := by
  have hcr : check_response resp = Except.ok false := by
    unfold check_response requiredKeys
    simp only [h1, h2]
  refine ⟨hcr, fun t sendFails => ?_⟩
  unfold cycleBody get_api_answer
  simp [hcr]

/-- Witness for C3 on a concrete well-formed empty response. -/
theorem empty_homeworks_no_send_witness :
    check_response emptyResp = Except.ok false ∧
    (cycleBody 0 ⟨.resp 200 (some emptyResp), false⟩).2 = ([], none) := by
  have h := empty_homeworks_no_send emptyResp (.pint 1700000000) rfl rfl
  exact ⟨h.1, h.2 0 false⟩

/-- C4: for every homework record whose status is a string outside the set
approved, reviewing, rejected, rendering it with parse_status fails with
IncorrectHomeworkStatus, and validating a response whose first record it is
with check_response fails with NoMatchStatusHomework; neither returns a
result. -/
theorem unknown_status_fails (es : List (String × PyVal)) (name : PyVal)
    (s : String) (d : PyVal)
    (hn : assoc es "homework_name" = some name)
    (hs : assoc es "status" = some (.pstr s))
    (hmem : s ∉ (["approved", "reviewing", "rejected"] : List String)) :
    parse_status (.pdict es) =
      Except.error (.IncorrectHomeworkStatus
        "Пустой или недокументированный статус домашней работы") ∧
    check_response (.pdict [("homeworks", .plist [.pdict es]),
        ("current_date", d)]) =
      Except.error (.NoMatchStatusHomework
        "Неизвестный статус домашней работы в ответе API") := by
  have hnone := verdict_lookup_none s hmem
  constructor
  · unfold parse_status
    simp only [hn, hs]
    unfold verdictsGet
    simp [hnone]
  · unfold check_response
    rw [show requiredKeys (.pdict [("homeworks", PyVal.plist [.pdict es]),
        ("current_date", d)]) = Except.ok (PyVal.plist [.pdict es]) from rfl]
    have hsub : subscript (.pdict es) "status" = Except.ok (.pstr s) := by
      simp only [subscript, hs]
    simp only [hsub]
    unfold verdictMember
    simp only [hnone, Option.isSome_none, Bool.false_eq_true, if_false]

/-- Witness for C4 at the unrecognized status value weird. -/
theorem unknown_status_fails_witness :
    parse_status (.pdict [("homework_name", .pstr "lab1"),
        ("status", .pstr "weird")]) =
      Except.error (BotError.IncorrectHomeworkStatus
        "Пустой или недокументированный статус домашней работы") ∧
    check_response (.pdict [("homeworks",
        .plist [.pdict [("homework_name", .pstr "lab1"),
          ("status", .pstr "weird")]]), ("current_date", .pint 1)]) =
      Except.error (BotError.NoMatchStatusHomework
        "Неизвестный статус домашней работы в ответе API") :=
  unknown_status_fails [("homework_name", .pstr "lab1"),
    ("status", .pstr "weird")] (.pstr "lab1") "weird" (.pint 1)
    rfl rfl (by decide)

/-- C5: for every response (a dict) in which the key homeworks or the key
current_date is absent, check_response fails with the missing-field KeyError
and returns no boolean result. -/
theorem check_response_missing_keys (es : List (String × PyVal))
    (h : assoc es "homeworks" = none ∨ assoc es "current_date" = none) :
    check_response (.pdict es) =
      Except.error (.keyError "Отсутствуют ожидаемые ключи в ответе API") := by
  unfold check_response requiredKeys subscript
  rcases h with h | h
  · simp only [h]
  · cases hh : assoc es "homeworks" <;> simp only [hh, h]

/-- Witness for C5 on the empty response dict. -/
theorem check_response_missing_keys_witness :
    check_response (.pdict []) =
      Except.error (BotError.keyError "Отсутствуют ожидаемые ключи в ответе API") :=
  check_response_missing_keys [] (Or.inl rfl)

/-- C9: for every response with both required keys whose homeworks value is a
non-empty list whose first element is a dict lacking the key status, the
status lookup happens outside the try block of check_response, so the
function fails with the plain KeyError carrying the key name status, which
differs from the typed missing-field KeyError message used for absent
response keys. -/
theorem check_response_status_outside_try (es : List (String × PyVal))
    (rest : List PyVal) (d : PyVal)
    (h : assoc es "status" = none) :
    check_response (.pdict [("homeworks", .plist (.pdict es :: rest)),
        ("current_date", d)]) = Except.error (.keyError "status") ∧
    BotError.keyError "status" ≠
      BotError.keyError "Отсутствуют ожидаемые ключи в ответе API" := by
  constructor
  · unfold check_response
    rw [show requiredKeys (.pdict [("homeworks", PyVal.plist (.pdict es :: rest)),
        ("current_date", d)]) = Except.ok (PyVal.plist (.pdict es :: rest)) from rfl]
    have hsub : subscript (.pdict es) "status" =
        Except.error (.keyError "status") := by
      simp only [subscript, h]
    simp only [hsub]
  · exact fun hc => absurd hc (by decide)

/-- Witness for C9 on a first record that only has homework_name. -/
theorem check_response_status_outside_try_witness :
    check_response (.pdict [("homeworks",
        .plist [.pdict [("homework_name", .pstr "lab1")]]),
        ("current_date", .pint 1)]) =
      Except.error (BotError.keyError "status") :=
  (check_response_status_outside_try [("homework_name", .pstr "lab1")] [] (.pint 1) rfl).1

/-- C6: if any of the three required configuration values is empty or unset,
check_tokens emits a critical log and raises MissingEnviromentVariable, and
main terminates with that error before running any loop cycle (so no API
request is ever issued); if all three are non-empty, check_tokens returns
true. -/
theorem check_tokens_gate (cfg : Config) (t : Int) (inps : List CycleInput) :
    ((envTruthy cfg.PRACTICUM_TOKEN && envTruthy cfg.TELEGRAM_CHAT_ID
        && envTruthy cfg.TELEGRAM_TOKEN) = false →
      (check_tokens cfg).1 =
        [(LogLevel.critical, "Отсутствует переменная окружения")] ∧
      main cfg t inps =
        Except.error (.MissingEnviromentVariable
          "Отсутствует переменная окружения")) ∧
    ((envTruthy cfg.PRACTICUM_TOKEN && envTruthy cfg.TELEGRAM_CHAT_ID
        && envTruthy cfg.TELEGRAM_TOKEN) = true →
      (check_tokens cfg).2 = Except.ok true) := by
  constructor <;> intro h
  · unfold main check_tokens
    simp [h]
  · unfold check_tokens
    simp [h]

/-- Witness for C6: a missing API token is fatal before the loop, and a full
configuration passes check_tokens. -/
theorem check_tokens_gate_witness :
    main ⟨none, some "b", some "c"⟩ 0 [] =
      Except.error (BotError.MissingEnviromentVariable
        "Отсутствует переменная окружения") ∧
    (check_tokens ⟨some "a", some "b", some "c"⟩).2 = Except.ok true :=
  ⟨((check_tokens_gate ⟨none, some "b", some "c"⟩ 0 []).1 (by decide)).2,
   (check_tokens_gate ⟨some "a", some "b", some "c"⟩ 0 []).2 (by decide)⟩

/-- C7 counterexample: in the run whose cycles raise the errors
GetRequestError, GetRequestError, StatusCodeNotOK, the second and third
cycles are consecutive, both raise errors, and their textual contents differ,
yet the second cycle is not logged (its log line is none), so it is false
that for any two consecutive error cycles with differing content both are
logged. -/
theorem error_dedup_cex :
    ((runLoop ⟨0, none⟩ [inExn, inExn, in404]).2).map
        (fun tr => (tr.err, tr.logged)) =
      [(some eReq, some ("Сбой в работе программы: " ++ errText eReq)),
       (some eReq, none),
       (some eStat, some ("Сбой в работе программы: " ++ errText eStat))] ∧
    errText eReq ≠ errText eStat :=
  ⟨rfl, by decide⟩

/-- C7 (amended): for any two consecutive loop cycles that each raise an
error, if the two errors' textual content is identical the second error is
not logged again, and if their textual content differs the second error is
logged. -/
theorem error_dedup_amended (st : MainState) (i1 i2 : CycleInput)
    (e1 e2 : BotError)
    (h1 : (cycleBody st.timestamp i1).2.2 = some e1)
    (h2 : (cycleBody st.timestamp i2).2.2 = some e2) :
    (errText e2 = errText e1 →
      ∃ l1, (runLoop st [i1, i2]).2.map (fun tr => tr.logged) = [l1, none]) ∧
    (errText e2 ≠ errText e1 →
      ∃ l1, (runLoop st [i1, i2]).2.map (fun tr => tr.logged) =
        [l1, some ("Сбой в работе программы: " ++ errText e2)]) := by
  have hts : (mainStep st i1).1.timestamp = st.timestamp :=
    mainStep_timestamp st i1
  have hls : lastStr (mainStep st i1).1.lastError = errText e1 :=
    mainStep_lastStr_of_err st i1 e1 h1
  have h2' : (cycleBody (mainStep st i1).1.timestamp i2).2.2 = some e2 := by
    rw [hts]; exact h2
  have hlog := mainStep_logged_of_err (mainStep st i1).1 i2 e2 h2'
  rw [hls] at hlog
  constructor <;> intro hcmp <;>
    refine ⟨(mainStep st i1).2.logged, ?_⟩ <;>
    simp only [runLoop, List.map_cons, List.map_nil]
  · rw [hlog, if_neg (not_not.mpr hcmp)]
  · rw [hlog, if_pos hcmp]

/-- Witness for C7 (amended) on a transport failure followed by a 404. -/
theorem error_dedup_amended_witness :
    ∃ l1, (runLoop ⟨0, none⟩ [inExn, in404]).2.map (fun tr => tr.logged) =
      [l1, some ("Сбой в работе программы: " ++ errText eStat)] :=
  (error_dedup_amended ⟨0, none⟩ inExn in404 eReq eStat rfl rfl).2 (by decide)

/-- C10: the last-error marker is never reset by a successful cycle: from any
loop state, after any number of cycles whose bodies raise no error, a cycle
raising an error whose text equals the current last-error marker produces no
log line, so suppression depends only on the last logged error text, not on
the error cycles being consecutive. -/
theorem last_error_marker_persists (st : MainState) (goods : List CycleInput)
    (bad : CycleInput) (e : BotError)
    (hg : ∀ i ∈ goods, (cycleBody st.timestamp i).2.2 = none)
    (hb : (cycleBody st.timestamp bad).2.2 = some e)
    (he : errText e = lastStr st.lastError) :
    ∃ trs0 tr, (runLoop st (goods ++ [bad])).2 = trs0 ++ [tr] ∧
      tr.err = some e ∧ tr.logged = none := by
  revert hg
  induction goods with
  | nil =>
    intro hg
    refine ⟨[], (mainStep st bad).2, by simp [runLoop], ?_, ?_⟩
    · exact mainStep_err_of_err st bad e hb
    · rw [mainStep_logged_of_err st bad e hb, if_neg (not_not.mpr he)]
  | cons g gs ih =>
    intro hg
    have hgg : (cycleBody st.timestamp g).2.2 = none :=
      hg g (List.mem_cons_self g gs)
    have hst : (mainStep st g).1 = st := mainStep_state_of_success st g hgg
    obtain ⟨trs0, tr, hrun, herr, hlog⟩ :=
      ih (fun i hi => hg i (List.mem_cons_of_mem g hi))
    refine ⟨(mainStep st g).2 :: trs0, tr, ?_, herr, hlog⟩
    simp only [List.cons_append, runLoop, hst, List.append_eq, hrun]

/-- Witness for C10: one successful empty-response cycle between two
transport failures does not reset the marker, so the later failure is
suppressed. -/
theorem last_error_marker_persists_witness :
    ∃ trs0 tr,
      (runLoop ⟨0, some eReq⟩ ([inEmptyOK] ++ [inExn])).2 = trs0 ++ [tr] ∧
      tr.err = some eReq ∧ tr.logged = none :=
  last_error_marker_persists ⟨0, some eReq⟩ [inEmptyOK] inExn eReq
    (by intro i hi; rw [List.mem_singleton] at hi; subst hi; rfl) rfl rfl

end HomeworkBot
